import Mathlib

/-!
Shallow embedding of `auto_di_tag.py` (AutoDITag): descriptor validation,
filename parsing, the rename stage, the tagging stage, the playlist builder
and the top-level exit-code mapping.  Strings are modelled as `List Char`
(Python `str`), file contents as a list of raw lines, the directory listing
as a list of names, and OS-level failures as boolean oracles.
-/

set_option maxRecDepth 10000

/-- Python whitespace class for `str.strip` and the regex class `\s`
(ASCII part; the inputs in this development are ASCII-only). -/
def isPyWs (c : Char) : Bool :=
  c == ' ' || c == '\t' || c == '\n' || c == '\r' || c == '\x0b' || c == '\x0c'

/-- Python `str.strip()`: drop whitespace from both ends. -/
def pyStrip (s : List Char) : List Char :=
  ((s.dropWhile isPyWs).reverse.dropWhile isPyWs).reverse

/-- Python `str.startswith` on char lists (first argument is the pattern). -/
def startsWithL : List Char → List Char → Bool
  | [], _ => true
  | _ :: _, [] => false
  | p :: ps, x :: xs => p == x && startsWithL ps xs

/-- Python `str.endswith` on char lists (first argument is the pattern). -/
def endsWithL (p s : List Char) : Bool :=
  startsWithL p.reverse s.reverse

/-- Python substring test `p in s`. -/
def hasInfix (p : List Char) : List Char → Bool
  | [] => p.isEmpty
  | l@(_ :: rest) => startsWithL p l || hasInfix p rest

/-- Python single-character containment `c in s`. -/
def hasChar (c : Char) (s : List Char) : Bool :=
  s.any (fun x => x == c)

/-- Python `f"{n:02d}"` for a natural number: decimal digits padded with
a leading zero to width two. -/
def zeroPad2 (n : Nat) : List Char :=
  if n < 10 then '0' :: Nat.toDigits 10 n else Nat.toDigits 10 n

/-- Python `str(i)` for an integer. -/
def intToStr (i : Int) : List Char :=
  if i < 0 then '-' :: Nat.toDigits 10 i.natAbs else Nat.toDigits 10 i.natAbs

/-!
Regex engine.  The two patterns of the program,
`(\d{2})_(.*);\s(.*)\s--\s(.*)$` (descriptor lines, `re.match`, end-anchored
by `$`) and `(\d{2})_(.*);\s(.*)\s--\s(.*)\.mp3` (filenames, `re.match`,
no end anchor), are concatenations of four token kinds.  The matcher mirrors
Python's leftmost, greedy, backtracking semantics: `.` does not match a
newline, `(.*)` tries the longest capture first, `re.match` anchors at the
start only, and an un-anchored pattern may leave a suffix unconsumed.
-/

/-- One regex token of the patterns used by the program. -/
inductive RTok where
  /-- a literal character -/
  | lit (c : Char)
  /-- the capture group `(\d{2})`: exactly two digits, captured -/
  | digitPair
  /-- the class `\s`: one whitespace character -/
  | wsOne
  /-- the capture group `(.*)`: greedy, any characters except newline -/
  | dotStar
deriving DecidableEq

/-- Greedy backtracking for `(.*)`: try the split at `i` characters first,
then shrink.  `next` matches the rest of the pattern on the suffix. -/
def starTry (next : List Char → Option (List (List Char))) (s : List Char) :
    Nat → Option (List (List Char))
  | 0 =>
    match next s with
    | some gs => some ([] :: gs)
    | none => none
  | i + 1 =>
    match next (s.drop (i + 1)) with
    | some gs => some (s.take (i + 1) :: gs)
    | none => starTry next s i

/-- Match a token list against a string, returning the captured groups in
order.  `anchorEnd` requires the whole string to be consumed (the `$` of the
descriptor pattern); without it trailing characters are allowed (`re.match`
of the filename pattern). -/
def reMatch (anchorEnd : Bool) : List RTok → List Char → Option (List (List Char))
  | [] => fun s => if anchorEnd && !s.isEmpty then none else some []
  | .lit c :: ts => fun s =>
    match s with
    | [] => none
    | x :: xs => if x == c then reMatch anchorEnd ts xs else none
  | .digitPair :: ts => fun s =>
    match s with
    | a :: b :: xs =>
      if a.isDigit && b.isDigit then
        (reMatch anchorEnd ts xs).map (fun gs => [a, b] :: gs)
      else none
    | _ => none
  | .wsOne :: ts => fun s =>
    match s with
    | [] => none
    | x :: xs => if isPyWs x then reMatch anchorEnd ts xs else none
  | .dotStar :: ts => fun s =>
    starTry (reMatch anchorEnd ts) s (s.takeWhile (fun c => c != '\n')).length

/-- Tokens of the descriptor-line pattern `(\d{2})_(.*);\s(.*)\s--\s(.*)$`. -/
def descToks : List RTok :=
  [.digitPair, .lit '_', .dotStar, .lit ';', .wsOne, .dotStar, .wsOne,
   .lit '-', .lit '-', .wsOne, .dotStar]

/-- Tokens of the filename pattern `(\d{2})_(.*);\s(.*)\s--\s(.*)\.mp3`. -/
def fileToks : List RTok :=
  [.digitPair, .lit '_', .dotStar, .lit ';', .wsOne, .dotStar, .wsOne,
   .lit '-', .lit '-', .wsOne, .dotStar, .lit '.', .lit 'm', .lit 'p', .lit '3']

/-- `parse_filename`: return `(track_num, title, artist, dance)` when the
filename matches the pattern (via `re.match`, so anchored at the start
only), else `none`. -/
def parseFilename (f : List Char) :
    Option (List Char × List Char × List Char × List Char) :=
  match reMatch false fileToks f with
  | some [n, t, a, d] => some (n, t, a, d)
  | _ => none

/-!
Descriptor file validation, `validate_descriptor_file`.  The file-level
I/O checks (existence, regular file, readability, UTF-8 decoding) happen
before the pure per-line validation; the embedding takes the successfully
decoded raw line list (the result of `readlines`) as input, so only the
"file is empty" check and the per-line checks are modelled.
-/

/-- The errors `validate_descriptor_file` can raise from the line checks,
with the data interpolated into each message. -/
inductive VErr where
  /-- `readlines` returned no lines at all -/
  | emptyFile
  /-- line has no semicolon but has a comma: the comma-vs-semicolon hint -/
  | commaForSemicolon (lineNum : Nat) (line : List Char)
  /-- line has neither semicolon nor comma -/
  | missingSemicolon (lineNum : Nat) (line : List Char)
  /-- line has no double-dash separator but has a single-dash one -/
  | singleDashForDouble (lineNum : Nat) (line : List Char)
  /-- line has no double-dash separator and no single-dash one -/
  | missingDoubleDash (lineNum : Nat) (line : List Char)
  /-- line does not start with the zero-padded expected track number;
  carries the expected text and the found text of the message -/
  | trackMismatch (lineNum : Nat) (expected found : List Char) (line : List Char)
  /-- line passed the earlier checks but not the full pattern -/
  | invalidFormat (lineNum : Nat) (line : List Char)
  /-- every line was empty after stripping -/
  | noValidEntries
deriving DecidableEq

/-- The checks `validate_descriptor_file` runs on one non-empty stripped
line, in source order: semicolon (with the comma hint), double-dash
separator (with the single-dash hint), zero-padded track-number start,
full pattern.  `none` means the line passed. -/
def lineError (lineNum : Nat) (line : List Char) : Option VErr :=
  if !hasChar ';' line then
    if hasChar ',' line then some (.commaForSemicolon lineNum line)
    else some (.missingSemicolon lineNum line)
  else if !hasInfix (" -- ".data) line then
    if hasInfix (" - ".data) line then some (.singleDashForDouble lineNum line)
    else some (.missingDoubleDash lineNum line)
  else if !startsWithL (zeroPad2 lineNum) line then
    some (.trackMismatch lineNum (zeroPad2 lineNum)
      (if 3 ≤ line.length then line.take 3 else line) line)
  else if (reMatch true descToks line).isNone then
    some (.invalidFormat lineNum line)
  else
    none

/-- The per-line loop of `validate_descriptor_file`: `lineNum` is the
1-based position in the raw file (blank lines are skipped but still
advance it), `acc` the lines validated so far. -/
def validateGo : List (List Char) → Nat → List (List Char) →
    Except VErr (List (List Char))
  | [], _, acc => .ok acc
  | raw :: rest, lineNum, acc =>
    if (pyStrip raw).isEmpty then
      validateGo rest (lineNum + 1) acc
    else
      match lineError lineNum (pyStrip raw) with
      | some e => .error e
      | none => validateGo rest (lineNum + 1) (acc ++ [pyStrip raw])

/-- `validate_descriptor_file` on the decoded raw line list. -/
def validateLines (lines : List (List Char)) : Except VErr (List (List Char)) :=
  if lines.isEmpty then .error .emptyFile
  else
    match validateGo lines 1 [] with
    | .error e => .error e
    | .ok vs => if vs.isEmpty then .error .noValidEntries else .ok vs

/-- The non-empty stripped lines of a raw line list, in original order:
what a valid descriptor file is specified to yield. -/
def nonEmptyStripped (lines : List (List Char)) : List (List Char) :=
  (lines.map pyStrip).filter (fun l => !l.isEmpty)

/-!
The rename stage.  The directory listing is a list of names; `os.rename`
mutates it (remove the source, the new name appears in later listings,
modelled by appending).  OS-level rename failures (the `PermissionError`
and generic `except` arms) are an oracle `osFail source target`.
-/

/-- `re.match(fr"{scount}[-_].*", f)`: the name starts with the zero-padded
count followed by a dash or an underscore. -/
def matchesTrack (sc f : List Char) : Bool :=
  startsWithL sc f &&
    (match f.drop sc.length with
     | [] => false
     | c :: _ => c == '-' || c == '_')

/-- State of the rename loop: current directory listing, number of
successful renames, track numbers recorded as missing. -/
structure RenSt where
  files : List (List Char)
  renamed : Nat
  missing : List Nat
deriving DecidableEq

/-- Errors the rename stage can raise. -/
inductive RenErr where
  /-- `validate_music_directory`: the directory listing is empty -/
  | emptyDir
  /-- the aggregate error: no files were successfully renamed -/
  | noFilesRenamed
deriving DecidableEq

/-- The per-line loop of `rename`: for each descriptor line (1-based
`count`), find the files matching the track prefix; none → record missing
and continue; otherwise take the first, skip if the target name already
exists, skip on an OS failure, else rename. -/
def renameLoop (osFail : List Char → List Char → Bool) :
    List (List Char) → Nat → RenSt → RenSt
  | [], _, st => st
  | line :: rest, count, st =>
    let sc := zeroPad2 count
    match st.files.filter (fun f => matchesTrack sc f) with
    | [] => renameLoop osFail rest (count + 1)
        { st with missing := st.missing ++ [count] }
    | src :: _ =>
      let target := pyStrip line ++ (".mp3").data
      if st.files.contains target then
        renameLoop osFail rest (count + 1) st
      else if osFail src target then
        renameLoop osFail rest (count + 1) st
      else
        renameLoop osFail rest (count + 1)
          { files := st.files.erase src ++ [target],
            renamed := st.renamed + 1, missing := st.missing }

/-- `rename` after descriptor validation: check the directory is
non-empty, run the loop over the validated lines, and raise the aggregate
error exactly when no rename succeeded. -/
def renameRun (lines files : List (List Char))
    (osFail : List Char → List Char → Bool) : Except RenErr RenSt :=
  if files.isEmpty then .error .emptyDir
  else
    let st := renameLoop osFail lines 1 ⟨files, 0, []⟩
    if st.renamed = 0 then .error .noFilesRenamed else .ok st

/-!
The tag container, `apply_tags`.  A mutagen `ID3` object is a dictionary
keyed by the frame hash key; the embedding is a map from
(frame id, sub-key) to the frame text, where the sub-key models the
description/language discriminator that COMM and TXXX frames carry.
`delall(fid)` removes every frame with that frame id; `add(frame)`
overwrites the entry at the frame's key.
-/

/-- The ID3 frame ids the program touches, plus `other` for any frame id
it does not (mutagen keys frames by their textual frame id; an enumerated
type embeds the finitely many names in play). -/
inductive FrameId where
  | TRCK | TRK | TIT2 | TPE1 | TCOM | TCON | COMM | TALB | TPE2 | TXXX
  | other (name : List Char)
deriving DecidableEq

/-- A tag container: frame (id, sub-key) to text. -/
def TagMap : Type := FrameId × List Char → Option (List Char)

/-- `tags.delall(fid)`: drop every frame whose frame id is `fid`. -/
def delall (fid : FrameId) (ts : TagMap) : TagMap :=
  fun k => if k.1 = fid then none else ts k

/-- `tags.add(frame)`: store the frame under its key, replacing any frame
already there. -/
def addFrame (fid : FrameId) (sub text : List Char) (ts : TagMap) : TagMap :=
  fun k => if k = (fid, sub) then some text else ts k

/-- `apply_tags` on the tag container of one file: delete all COMM and
TXXX frames, then add the derived frame set (track number as TRCK and TRK,
title as TIT2, artist as TPE1 and TCOM, dance as TCON and COMM, album as
TALB and TPE2), and save. -/
def applyTags (ts : TagMap) (num title artist dance album : List Char) : TagMap :=
  addFrame .TPE2 [] album
    (addFrame .TALB [] album
      (addFrame .COMM [] dance
        (addFrame .TCON [] dance
          (addFrame .TCOM [] artist
            (addFrame .TPE1 [] artist
              (addFrame .TIT2 [] title
                (addFrame .TRK [] num
                  (addFrame .TRCK [] num
                    (delall .TXXX
                      (delall .COMM ts))))))))))

/-!
The playlist builder, `create_playlist_files`.  Durations come from the
external audio reader as an oracle `durOf path = some seconds` (rationals
model the float duration; `none` models an exception while opening or
reading the file).  The outcome records which files the stage left on
disk: the `.m3u` is opened for writing (created or truncated) before the
loop, its lines are written only on success, and the `.m3u8` copy is made
only after a successful write.
-/

/-- Python `int()` on a rational: truncation toward zero. -/
def pyIntOfRat (q : ℚ) : Int :=
  Int.tdiv q.num (Int.ofNat q.den)

/-- UTF-8 bytes of one character. -/
def utf8Bytes (c : Char) : List Nat :=
  let n := c.toNat
  if n < 0x80 then [n]
  else if n < 0x800 then
    [0xC0 ||| (n >>> 6), 0x80 ||| (n &&& 0x3F)]
  else if n < 0x10000 then
    [0xE0 ||| (n >>> 12), 0x80 ||| ((n >>> 6) &&& 0x3F), 0x80 ||| (n &&& 0x3F)]
  else
    [0xF0 ||| (n >>> 18), 0x80 ||| ((n >>> 12) &&& 0x3F),
     0x80 ||| ((n >>> 6) &&& 0x3F), 0x80 ||| (n &&& 0x3F)]

/-- Upper-case hexadecimal digit. -/
def hexDigit (n : Nat) : Char :=
  if n < 10 then Char.ofNat (('0').toNat + n) else Char.ofNat (('A').toNat + n - 10)

/-- A character `urllib.parse.quote` leaves as-is with the default
`safe='/'`: ASCII alphanumerics, `_.-~` and `/`. -/
def quoteSafe (c : Char) : Bool :=
  c.isAlpha || c.isDigit || c == '_' || c == '.' || c == '-' || c == '~' || c == '/'

/-- `urllib.parse.quote` with the default safe set: percent-encode every
UTF-8 byte of each unsafe character. -/
def pyQuote (s : List Char) : List Char :=
  (s.map (fun c =>
    if quoteSafe c then [c]
    else ((utf8Bytes c).map (fun b => ['%', hexDigit (b / 16), hexDigit (b % 16)])).flatten)).flatten

/-- `os.path.join` for POSIX paths as the program uses it. -/
def ospJoin (a b : List Char) : List Char :=
  if startsWithL (("/").data) b then b
  else if a.isEmpty then b
  else if endsWithL (("/").data) a then a ++ b
  else a ++ ("/").data ++ b

/-- Lexicographic order on strings by code point, Python `list.sort` key. -/
def strLe : List Char → List Char → Bool
  | [], _ => true
  | _ :: _, [] => false
  | a :: as, b :: bs => if a < b then true else if a = b then strLe as bs else false

/-- Insert into a sorted list, keeping earlier elements first on ties. -/
def insertSorted (x : List Char) : List (List Char) → List (List Char)
  | [] => [x]
  | y :: ys => if strLe x y then x :: y :: ys else y :: insertSorted x ys

/-- `sdir.sort()`: sort the directory listing lexicographically. -/
def sortStrs : List (List Char) → List (List Char)
  | [] => []
  | x :: xs => insertSorted x (sortStrs xs)

/-- The newline terminating each playlist line. -/
def newlineChar : Char := '\n'

/-- The `#EXTINF` info line for one track. -/
def extinfLine (q : ℚ) (artist title : List Char) : List Char :=
  ("#EXTINF:").data ++ intToStr (pyIntOfRat q) ++ (",").data ++ artist ++
    (" - ").data ++ title ++ [newlineChar]

/-- The percent-encoded path line for one track. -/
def pathLine (dir af : List Char) : List Char :=
  pyQuote (ospJoin dir af) ++ [newlineChar]

/-- One iteration body of the playlist loop: `none` when the file is
skipped (not an `.mp3`, unparseable name, or duration read failure),
otherwise the two lines it contributes. -/
def playlistEntry (dir : List Char) (durOf : List Char → Option ℚ)
    (af : List Char) : Option (List (List Char)) :=
  if !endsWithL ((".mp3").data) af then none
  else
    match parseFilename af with
    | none => none
    | some (_, title, artist, _) =>
      match durOf (ospJoin dir af) with
      | none => none
      | some q => some [extinfLine q artist title, pathLine dir af]

/-- The playlist loop over the sorted listing: collected lines and the
number of files successfully processed. -/
def playlistLoop (dir : List Char) (durOf : List Char → Option ℚ) :
    List (List Char) → List (List Char) × Nat
  | [] => ([], 0)
  | af :: rest =>
    match playlistEntry dir durOf af with
    | none => playlistLoop dir durOf rest
    | some e =>
      (e ++ (playlistLoop dir durOf rest).1, (playlistLoop dir durOf rest).2 + 1)

/-- Errors the playlist stage can raise. -/
inductive PlErr where
  /-- `validate_music_directory`: the directory listing is empty -/
  | emptyDir
  /-- the aggregate error: no valid MP3 files were processed -/
  | noValidMp3s
deriving DecidableEq

/-- What `create_playlist_files` leaves on disk and returns:
whether `<name>.m3u` was opened for writing (created or truncated), the
lines it holds afterwards, the content of the `<name>.m3u8` copy if the
copy was made, and the stage outcome (processed count on success). -/
structure PlaylistFS where
  m3uOpened : Bool
  m3uContent : List (List Char)
  m3u8Content : Option (List (List Char))
  result : Except PlErr Nat

/-- The `#EXTM3U` header line. -/
def headerLine : List Char := ("#EXTM3U").data ++ [newlineChar]

/-- `create_playlist_files`: validate the directory (before the playlist
file is opened), open `<name>.m3u` for writing, walk the sorted listing,
raise the aggregate error while the opened file is still empty when
nothing was processed, else write the lines and copy to `<name>.m3u8`. -/
def createPlaylistFiles (dir : List Char) (files : List (List Char))
    (durOf : List Char → Option ℚ) : PlaylistFS :=
  if files.isEmpty then
    { m3uOpened := false, m3uContent := [], m3u8Content := none,
      result := .error .emptyDir }
  else
    if (playlistLoop dir durOf (sortStrs files)).2 = 0 then
      { m3uOpened := true, m3uContent := [], m3u8Content := none,
        result := .error .noValidMp3s }
    else
      { m3uOpened := true,
        m3uContent := headerLine :: (playlistLoop dir durOf (sortStrs files)).1,
        m3u8Content := some (headerLine :: (playlistLoop dir durOf (sortStrs files)).1),
        result := .ok (playlistLoop dir durOf (sortStrs files)).2 }

/-!
The top level, `main`: each caught exception class is mapped to a process
exit status by the chain of `except` clauses; argument-parsing failure
exits through `argparse` with status 2.
-/

/-- The ways one run of `main` can end. -/
inductive TopOutcome where
  | success
  | descriptorError
  | audioFileError
  | autoDITagError
  | keyboardInterrupt
  | unexpectedError
  /-- `argparse` rejected the command line (missing required flag) -/
  | usageError
deriving DecidableEq

/-- The process exit status `main` produces for each outcome. -/
def mainExitCode : TopOutcome → Nat
  | .success => 0
  | .descriptorError => 1
  | .audioFileError => 1
  | .autoDITagError => 1
  | .keyboardInterrupt => 1
  | .unexpectedError => 1
  | .usageError => 2

/-!
Sanity checks: the behaviours the repository's unit tests pin down,
evaluated on the embedding.
-/

example :
    parseFilename (("01_Title; Artist -- Dance.mp3").data) =
      some (("01").data, ("Title").data, ("Artist").data, ("Dance").data) := by
  decide

example : parseFilename (("invalid.mp3").data) = none := by decide

example : parseFilename (("01_Title; Artist -- Dance.txt").data) = none := by decide

example :
    validateLines [("01_Song; Artist -- Dance\n").data, ("02_Another, One; A -- B\n").data] =
      .ok [("01_Song; Artist -- Dance").data, ("02_Another, One; A -- B").data] := by
  rfl

example :
    validateLines [("01_Song, Artist -- Dance\n").data] =
      .error (.commaForSemicolon 1 (("01_Song, Artist -- Dance").data)) := by
  rfl

example :
    validateLines [("01_Song; Artist - Dance\n").data] =
      .error (.singleDashForDouble 1 (("01_Song; Artist - Dance").data)) := by
  rfl

example :
    validateLines [("03_Song; Artist -- Dance\n").data] =
      .error (.trackMismatch 1 (("01").data) (("03_").data) (("03_Song; Artist -- Dance").data)) := by
  rfl

example :
    (renameLoop (fun _ _ => false)
      [("01_Waltz; Artist -- Dance").data, ("02_Tango; Artist -- Dance").data]
      1 ⟨[("01-Song.mp3").data, ("02-Song.mp3").data], 0, []⟩).files =
      [("01_Waltz; Artist -- Dance.mp3").data, ("02_Tango; Artist -- Dance.mp3").data] := by
  decide

example :
    extinfLine (mkRat 12345 100) (("Artist").data) (("Title").data) =
      ("#EXTINF:123,Artist - Title\n").data := by
  decide

example :
    pathLine (("music").data) (("01_Title; Artist -- Style.mp3").data) =
      ("music/01_Title%3B%20Artist%20--%20Style.mp3\n").data := by
  decide

/-!
Helper lemmas about the descriptor validation loop.
-/

theorem validateGo_ok_eq (ls : List (List Char)) :
    ∀ (n : Nat) (acc res : List (List Char)),
      validateGo ls n acc = .ok res → res = acc ++ nonEmptyStripped ls := by
  induction ls with
  | nil =>
    intro n acc res h
    simp only [validateGo] at h
    cases h
    simp [nonEmptyStripped]
  | cons raw rest ih =>
    intro n acc res h
    simp only [validateGo] at h
    by_cases hemp : (pyStrip raw).isEmpty
    · rw [if_pos hemp] at h
      have := ih (n + 1) acc res h
      simp only [nonEmptyStripped, List.map_cons, List.filter_cons, hemp] at this ⊢
      simpa [nonEmptyStripped] using this
    · rw [if_neg hemp] at h
      cases hle : lineError n (pyStrip raw) with
      | some e => rw [hle] at h; cases h
      | none =>
        rw [hle] at h
        have := ih (n + 1) (acc ++ [pyStrip raw]) res h
        simp only [nonEmptyStripped, List.map_cons, List.filter_cons] at this ⊢
        simp only [Bool.not_eq_true'] at *
        simp [hemp] at this ⊢
        simpa [List.append_assoc] using this

/-- C1: for every valid descriptor file — one whose decoded raw line list
makes `validate_descriptor_file` succeed, i.e. every non-empty line passes
the format checks — the function returns exactly the non-empty,
whitespace-trimmed lines of the file, in their original order, with no
other lines added or dropped. -/
theorem validateLines_ok_eq (lines res : List (List Char))
    (h : validateLines lines = .ok res) : res = nonEmptyStripped lines := by
  simp only [validateLines] at h
  by_cases hemp : lines.isEmpty
  · rw [if_pos hemp] at h; cases h
  · rw [if_neg hemp] at h
    cases hgo : validateGo lines 1 [] with
    | error e => rw [hgo] at h; cases h
    | ok vs =>
      rw [hgo] at h
      dsimp only at h
      by_cases hvs : vs.isEmpty
      · rw [if_pos hvs] at h; cases h
      · rw [if_neg hvs] at h
        cases h
        simpa using validateGo_ok_eq lines 1 [] res hgo

theorem take3_flatten_if (line : List Char) :
    (if 3 ≤ line.length then line.take 3 else line) = line.take 3 := by
  split
  · rfl
  · exact (List.take_of_length_le (by omega)).symm

theorem lineError_none_startsWith (n : Nat) (line : List Char)
    (h : lineError n line = none) : startsWithL (zeroPad2 n) line = true := by
  simp only [lineError] at h
  repeat' split at h
  all_goals simp_all

theorem lineError_trackMismatch_payload (n ln : Nat) (line exp fnd l2 : List Char)
    (h : lineError n line = some (.trackMismatch ln exp fnd l2)) :
    ln = n ∧ l2 = line ∧ exp = zeroPad2 n ∧ fnd = line.take 3 ∧
      startsWithL (zeroPad2 n) line = false := by
  simp only [lineError] at h
  split at h
  · split at h <;> simp at h
  · split at h
    · split at h <;> simp at h
    · split at h
      · rename_i hsw
        simp only [Option.some.injEq, VErr.trackMismatch.injEq] at h
        obtain ⟨rfl, rfl, rfl, rfl⟩ := h
        refine ⟨rfl, rfl, rfl, take3_flatten_if line, ?_⟩
        simpa using hsw
      · split at h <;> simp at h

theorem validateGo_ok_startsWith (ls : List (List Char)) :
    ∀ (n : Nat) (acc res : List (List Char)), validateGo ls n acc = .ok res →
      ∀ (i : Nat) (hi : i < ls.length),
        (pyStrip (ls.get ⟨i, hi⟩)).isEmpty = false →
        startsWithL (zeroPad2 (n + i)) (pyStrip (ls.get ⟨i, hi⟩)) = true := by
  induction ls with
  | nil => intro n acc res _ i hi; cases hi
  | cons raw rest ih =>
    intro n acc res h i hi hne
    simp only [validateGo] at h
    cases i with
    | zero =>
      simp only [List.get] at hne ⊢
      rw [if_neg (by simp [hne])] at h
      cases hle : lineError n (pyStrip raw) with
      | some e => rw [hle] at h; cases h
      | none => simpa using lineError_none_startsWith n (pyStrip raw) hle
    | succ j =>
      have hj : j < rest.length := by simpa using hi
      by_cases hemp : (pyStrip raw).isEmpty
      · rw [if_pos hemp] at h
        have := ih (n + 1) acc res h j hj (by simpa using hne)
        simpa [Nat.add_assoc, Nat.add_comm 1 j] using this
      · rw [if_neg hemp] at h
        cases hle : lineError n (pyStrip raw) with
        | some e => rw [hle] at h; cases h
        | none =>
          rw [hle] at h
          have := ih (n + 1) (acc ++ [pyStrip raw]) res h j hj (by simpa using hne)
          simpa [Nat.add_assoc, Nat.add_comm 1 j] using this

theorem validateGo_error_trackMismatch (ls : List (List Char)) :
    ∀ (n : Nat) (acc : List (List Char)) (ln : Nat) (exp fnd line : List Char),
      validateGo ls n acc = .error (.trackMismatch ln exp fnd line) →
      exp = zeroPad2 ln ∧ fnd = line.take 3 ∧
        startsWithL (zeroPad2 ln) line = false := by
  induction ls with
  | nil => intro n acc ln exp fnd line h; cases h
  | cons raw rest ih =>
    intro n acc ln exp fnd line h
    simp only [validateGo] at h
    by_cases hemp : (pyStrip raw).isEmpty
    · rw [if_pos hemp] at h
      exact ih (n + 1) acc ln exp fnd line h
    · rw [if_neg hemp] at h
      cases hle : lineError n (pyStrip raw) with
      | some e =>
        rw [hle] at h
        cases h
        have := lineError_trackMismatch_payload n ln (pyStrip raw) exp fnd line hle
        obtain ⟨h1, h2, h3, h4, h5⟩ := this
        subst h1; subst h2
        exact ⟨h3, h4, h5⟩
      | none =>
        rw [hle] at h
        exact ih (n + 1) (acc ++ [pyStrip raw]) ln exp fnd line h

/-- C2 (amended): the expected track number of a descriptor line is its
1-based position in the raw file, counting blank lines.  Whenever
`validate_descriptor_file` succeeds, every non-empty line at raw position
`i` (0-based) starts with the zero-padded `i + 1` — so blank lines shift
the expected numbers of the lines after them, and a returned line starts
with the zero-padded raw line number of its source line, not necessarily
the index of its position in the returned list. -/
theorem validateLines_ok_startsWith (lines res : List (List Char))
    (h : validateLines lines = .ok res) :
    ∀ (i : Nat) (hi : i < lines.length),
      (pyStrip (lines.get ⟨i, hi⟩)).isEmpty = false →
      startsWithL (zeroPad2 (i + 1)) (pyStrip (lines.get ⟨i, hi⟩)) = true := by
  intro i hi hne
  simp only [validateLines] at h
  by_cases hemp : lines.isEmpty
  · rw [if_pos hemp] at h; cases h
  · rw [if_neg hemp] at h
    cases hgo : validateGo lines 1 [] with
    | error e => rw [hgo] at h; cases h
    | ok vs =>
      have := validateGo_ok_startsWith lines 1 [] vs hgo i hi hne
      simpa [Nat.add_comm] using this

/-- C7 (amended): whenever `validate_descriptor_file` fails with a track
number mismatch, the error reports the expected zero-padded prefix
(2 characters for line numbers below 100) and the first THREE characters
of the line (the whole line when it is shorter than three characters),
and the line indeed does not start with the expected prefix. -/
theorem validateLines_error_trackMismatch (lines : List (List Char))
    (ln : Nat) (exp fnd line : List Char)
    (h : validateLines lines = .error (.trackMismatch ln exp fnd line)) :
    exp = zeroPad2 ln ∧ fnd = line.take 3 ∧
      startsWithL (zeroPad2 ln) line = false := by
  simp only [validateLines] at h
  by_cases hemp : lines.isEmpty
  · rw [if_pos hemp] at h; simp at h
  · rw [if_neg hemp] at h
    cases hgo : validateGo lines 1 [] with
    | error e =>
      rw [hgo] at h
      dsimp only at h
      cases h
      exact validateGo_error_trackMismatch lines 1 [] ln exp fnd line hgo
    | ok vs =>
      rw [hgo] at h
      dsimp only at h
      by_cases hvs : vs.isEmpty
      · rw [if_pos hvs] at h; simp at h
      · rw [if_neg hvs] at h; cases h

/-!
Helper lemmas about the rename loop.
-/

theorem renameLoop_skip_all (osFail : List Char → List Char → Bool)
    (lines : List (List Char)) :
    ∀ (n : Nat) (st : RenSt),
      (∀ line ∈ lines, st.files.contains (pyStrip line ++ (".mp3").data) = true) →
      (renameLoop osFail lines n st).files = st.files ∧
        (renameLoop osFail lines n st).renamed = st.renamed := by
  induction lines with
  | nil => intro n st _; exact ⟨rfl, rfl⟩
  | cons line rest ih =>
    intro n st hall
    have hline : st.files.contains (pyStrip line ++ (".mp3").data) = true :=
      hall line (List.mem_cons_self _ _)
    have hrest : ∀ l ∈ rest, st.files.contains (pyStrip l ++ (".mp3").data) = true :=
      fun l hl => hall l (List.mem_cons_of_mem _ hl)
    simp only [renameLoop]
    split
    · exact ih (n + 1) _ hrest
    · rw [if_pos hline]
      exact ih (n + 1) st hrest

theorem renameRun_error_of_renamed_zero (lines files : List (List Char))
    (osFail : List Char → List Char → Bool) (hf : files ≠ [])
    (h0 : (renameLoop osFail lines 1 ⟨files, 0, []⟩).renamed = 0) :
    renameRun lines files osFail = .error .noFilesRenamed := by
  simp only [renameRun]
  rw [if_neg (by simpa using hf)]
  rw [if_pos h0]

/-!
Helper lemmas about the playlist loop.
-/

theorem mem_insertSorted (x a : List Char) (l : List (List Char)) :
    a ∈ insertSorted x l ↔ a = x ∨ a ∈ l := by
  induction l with
  | nil => simp [insertSorted]
  | cons y ys ih =>
    simp only [insertSorted]
    split
    · simp [List.mem_cons]
    · simp only [List.mem_cons, ih]
      tauto

theorem mem_sortStrs (a : List Char) (l : List (List Char)) (h : a ∈ l) :
    a ∈ sortStrs l := by
  induction l with
  | nil => cases h
  | cons y ys ih =>
    simp only [sortStrs]
    rcases List.mem_cons.mp h with rfl | h2
    · exact (mem_insertSorted _ _ _).mpr (Or.inl rfl)
    · exact (mem_insertSorted _ _ _).mpr (Or.inr (ih h2))

theorem playlistLoop_entry_pair (dir : List Char) (durOf : List Char → Option ℚ)
    (af : List Char) (e : List (List Char)) :
    ∀ (fs : List (List Char)), af ∈ fs → playlistEntry dir durOf af = some e →
      List.IsInfix e (playlistLoop dir durOf fs).1 ∧
        0 < (playlistLoop dir durOf fs).2 := by
  intro fs
  induction fs with
  | nil => intro h; cases h
  | cons b rest ih =>
    intro hmem he
    rcases List.mem_cons.mp hmem with rfl | h2
    · simp only [playlistLoop, he]
      exact ⟨⟨[], (playlistLoop dir durOf rest).1, by simp⟩, Nat.succ_pos _⟩
    · have hih := ih h2 he
      simp only [playlistLoop]
      cases hb : playlistEntry dir durOf b with
      | none => simpa [hb] using hih
      | some e2 =>
        obtain ⟨⟨s, t, hst⟩, hpos⟩ := hih
        constructor
        · refine ⟨e2 ++ s, t, ?_⟩
          simp only [hb]
          rw [← hst]
          simp [List.append_assoc]
        · simp only [hb]
          exact Nat.lt_of_lt_of_le hpos (Nat.le_succ _)

/-!
Soundness of the matcher: a successful match decomposes the input along
the pattern.  Used to characterise what `parse_filename` accepts.
-/

theorem starTry_some (next : List Char → Option (List (List Char))) (s : List Char) :
    ∀ (i : Nat) (out : List (List Char)), starTry next s i = some out →
      ∃ (g : List Char) (gs : List (List Char)) (s2 : List Char),
        out = g :: gs ∧ s = g ++ s2 ∧ next s2 = some gs := by
  intro i
  induction i with
  | zero =>
    intro out h
    cases hn : next s with
    | none => simp [starTry, hn] at h
    | some gs =>
      simp only [starTry, hn] at h
      cases h
      exact ⟨[], gs, s, rfl, rfl, hn⟩
  | succ j ih =>
    intro out h
    cases hn : next (s.drop (j + 1)) with
    | none =>
      simp only [starTry, hn] at h
      exact ih out h
    | some gs =>
      simp only [starTry, hn] at h
      cases h
      exact ⟨s.take (j + 1), gs, s.drop (j + 1), rfl,
        (List.take_append_drop _ _).symm, hn⟩

theorem reMatch_nil_some {ae : Bool} {s : List Char} {gs : List (List Char)}
    (h : reMatch ae [] s = some gs) : gs = [] := by
  simp only [reMatch] at h
  split at h
  · cases h
  · cases h; rfl

theorem reMatch_lit_some {ae : Bool} {c : Char} {ts : List RTok} {s : List Char}
    {gs : List (List Char)} (h : reMatch ae (.lit c :: ts) s = some gs) :
    ∃ s2, s = c :: s2 ∧ reMatch ae ts s2 = some gs := by
  cases s with
  | nil => simp [reMatch] at h
  | cons x xs =>
    simp only [reMatch] at h
    split at h
    · rename_i hx
      have hxc : x = c := by simpa using hx
      subst hxc
      exact ⟨xs, rfl, h⟩
    · cases h

theorem reMatch_wsOne_some {ae : Bool} {ts : List RTok} {s : List Char}
    {gs : List (List Char)} (h : reMatch ae (.wsOne :: ts) s = some gs) :
    ∃ w s2, s = w :: s2 ∧ isPyWs w = true ∧ reMatch ae ts s2 = some gs := by
  cases s with
  | nil => simp [reMatch] at h
  | cons x xs =>
    simp only [reMatch] at h
    split at h
    · rename_i hx
      exact ⟨x, xs, rfl, hx, h⟩
    · cases h

theorem reMatch_digitPair_some {ae : Bool} {ts : List RTok} {s : List Char}
    {gs : List (List Char)} (h : reMatch ae (.digitPair :: ts) s = some gs) :
    ∃ c1 c2 s2 gs2, s = c1 :: c2 :: s2 ∧ c1.isDigit = true ∧ c2.isDigit = true ∧
      gs = [c1, c2] :: gs2 ∧ reMatch ae ts s2 = some gs2 := by
  match s with
  | [] => simp [reMatch] at h
  | [c] => simp [reMatch] at h
  | c1 :: c2 :: s2 =>
    simp only [reMatch] at h
    split at h
    · rename_i hd
      cases hre : reMatch ae ts s2 with
      | none => rw [hre] at h; cases h
      | some gs2 =>
        rw [hre] at h
        simp only [Option.map_some'] at h
        cases h
        rw [Bool.and_eq_true] at hd
        exact ⟨c1, c2, s2, gs2, rfl, hd.1, hd.2, rfl, hre⟩
    · cases h

theorem reMatch_dotStar_some {ae : Bool} {ts : List RTok} {s : List Char}
    {gs : List (List Char)} (h : reMatch ae (.dotStar :: ts) s = some gs) :
    ∃ g gs2 s2, gs = g :: gs2 ∧ s = g ++ s2 ∧ reMatch ae ts s2 = some gs2 := by
  simp only [reMatch] at h
  exact starTry_some _ s _ gs h

theorem parseFilename_some_shape (f num title artist dance : List Char)
    (h : parseFilename f = some (num, title, artist, dance)) :
    ∃ (c1 c2 w1 w2 w3 : Char) (suf : List Char),
      num = [c1, c2] ∧ c1.isDigit = true ∧ c2.isDigit = true ∧
      isPyWs w1 = true ∧ isPyWs w2 = true ∧ isPyWs w3 = true ∧
      f = [c1, c2, '_'] ++ title ++ [';', w1] ++ artist ++ [w2, '-', '-', w3] ++
        dance ++ ('.' :: 'm' :: 'p' :: '3' :: suf) := by
  simp only [parseFilename] at h
  cases hre : reMatch false fileToks f with
  | none => rw [hre] at h; cases h
  | some gs =>
    rw [hre] at h
    simp only [fileToks] at hre
    obtain ⟨c1, c2, s2, gs2, rfl, hd1, hd2, rfl, h2⟩ := reMatch_digitPair_some hre
    obtain ⟨s3, rfl, h3⟩ := reMatch_lit_some h2
    obtain ⟨t, gs3, s4, rfl, rfl, h4⟩ := reMatch_dotStar_some h3
    obtain ⟨s5, rfl, h5⟩ := reMatch_lit_some h4
    obtain ⟨w1, s6, rfl, hw1, h6⟩ := reMatch_wsOne_some h5
    obtain ⟨a, gs4, s7, rfl, rfl, h7⟩ := reMatch_dotStar_some h6
    obtain ⟨w2, s8, rfl, hw2, h8⟩ := reMatch_wsOne_some h7
    obtain ⟨s9, rfl, h9⟩ := reMatch_lit_some h8
    obtain ⟨s10, rfl, h10⟩ := reMatch_lit_some h9
    obtain ⟨w3, s11, rfl, hw3, h11⟩ := reMatch_wsOne_some h10
    obtain ⟨d, gs5, s12, rfl, rfl, h12⟩ := reMatch_dotStar_some h11
    obtain ⟨s13, rfl, h13⟩ := reMatch_lit_some h12
    obtain ⟨s14, rfl, h14⟩ := reMatch_lit_some h13
    obtain ⟨s15, rfl, h15⟩ := reMatch_lit_some h14
    obtain ⟨s16, rfl, h16⟩ := reMatch_lit_some h15
    have : gs5 = [] := reMatch_nil_some h16
    subst this
    dsimp only at h
    cases h
    exact ⟨c1, c2, w1, w2, w3, s16, rfl, hd1, hd2, hw1, hw2, hw3, by simp⟩

/-!
Claim theorems, with their witnesses and counterexamples.
-/

/-- C1 witness: a concrete valid one-line descriptor file. -/
theorem validateLines_ok_eq_witness :
    validateLines [("01_Song; Artist -- Dance\n").data] =
      .ok [("01_Song; Artist -- Dance").data] ∧
    [("01_Song; Artist -- Dance").data] =
      nonEmptyStripped [("01_Song; Artist -- Dance\n").data] :=
  ⟨by rfl, validateLines_ok_eq _ _ (by rfl)⟩

/-- C2 counterexample: a leading blank line shifts the expected track
number to the raw line number, so a file whose first non-empty line
starts with "01" fails; and in a file that interleaves a blank line
between valid lines "01" and "03", validation succeeds while the second
returned line does not start with the zero-padded index 2 of its position
in the returned list.  Both refute the claim that the expected number is
the index among the non-empty lines. -/
theorem blank_lines_shift_expected_numbers :
    validateLines [("\n").data, ("01_T; A -- D\n").data] =
      .error (.trackMismatch 2 (("02").data) (("01_").data) (("01_T; A -- D").data)) ∧
    validateLines [("01_T; A -- D").data, ("\n").data, ("03_T; A -- D").data] =
      .ok [("01_T; A -- D").data, ("03_T; A -- D").data] ∧
    startsWithL (zeroPad2 2) (("03_T; A -- D").data) = false :=
  ⟨by rfl, by rfl, by rfl⟩

/-- C2 witness: the interleaved-blank file succeeds and its line at raw
0-based position 2 starts with the zero-padded raw line number 3. -/
theorem validateLines_ok_startsWith_witness :
    validateLines [("01_T; A -- D").data, ("\n").data, ("03_T; A -- D").data] =
      .ok [("01_T; A -- D").data, ("03_T; A -- D").data] ∧
    startsWithL (zeroPad2 (2 + 1))
      (pyStrip ([("01_T; A -- D").data, ("\n").data, ("03_T; A -- D").data].get
        ⟨2, by decide⟩)) = true :=
  ⟨by rfl, validateLines_ok_startsWith _ _ (by rfl) 2 (by decide) (by decide)⟩

/-- C3 counterexample: the filename pattern is matched with `re.match`,
which does not anchor the end, so a name carrying extra characters after
`.mp3` — hence not of the shape `NN_TITLE; ARTIST -- DANCE.mp3` and not
ending in `.mp3` — still parses instead of yielding the sentinel. -/
theorem parseFilename_accepts_trailing_suffix :
    parseFilename (("01_Title; Artist -- Dance.mp3.txt").data) =
      some (("01").data, ("Title").data, ("Artist").data, ("Dance").data) ∧
    endsWithL ((".mp3").data) (("01_Title; Artist -- Dance.mp3.txt").data) = false := by
  decide

/-- C3 (amended): `parse_filename` returns the 4-tuple exactly for
filenames an initial segment of which matches
`NN_TITLE; ARTIST -- DANCE.mp3` — the `.mp3` must be present but need not
be final — and never throws.  The spec's examples hold:
`01_Title; Artist -- Dance.mp3` parses to `("01","Title","Artist","Dance")`,
`invalid.mp3` and `01_Title; Artist -- Dance.txt` give the sentinel; and
every successful parse decomposes the filename along the pattern with an
arbitrary (possibly empty) suffix after `.mp3`. -/
theorem parseFilename_amended :
    parseFilename (("01_Title; Artist -- Dance.mp3").data) =
      some (("01").data, ("Title").data, ("Artist").data, ("Dance").data) ∧
    parseFilename (("invalid.mp3").data) = none ∧
    parseFilename (("01_Title; Artist -- Dance.txt").data) = none ∧
    (∀ (f num title artist dance : List Char),
      parseFilename f = some (num, title, artist, dance) →
      ∃ (c1 c2 w1 w2 w3 : Char) (suf : List Char),
        num = [c1, c2] ∧ c1.isDigit = true ∧ c2.isDigit = true ∧
        isPyWs w1 = true ∧ isPyWs w2 = true ∧ isPyWs w3 = true ∧
        f = [c1, c2, '_'] ++ title ++ [';', w1] ++ artist ++ [w2, '-', '-', w3] ++
          dance ++ ('.' :: 'm' :: 'p' :: '3' :: suf)) :=
  ⟨by decide, by decide, by decide, parseFilename_some_shape⟩

/-- C3 witness: the decomposition applied to the concrete parse of
`01_Title; Artist -- Dance.mp3.txt`. -/
theorem parseFilename_amended_witness :
    ∃ (c1 c2 w1 w2 w3 : Char) (suf : List Char),
      ("01").data = [c1, c2] ∧ c1.isDigit = true ∧ c2.isDigit = true ∧
      isPyWs w1 = true ∧ isPyWs w2 = true ∧ isPyWs w3 = true ∧
      ("01_Title; Artist -- Dance.mp3.txt").data =
        [c1, c2, '_'] ++ ("Title").data ++ [';', w1] ++ ("Artist").data ++
          [w2, '-', '-', w3] ++ ("Dance").data ++ ('.' :: 'm' :: 'p' :: '3' :: suf) :=
  parseFilename_amended.2.2.2 (("01_Title; Artist -- Dance.mp3.txt").data)
    (("01").data) (("Title").data) (("Artist").data) (("Dance").data) (by decide)

/-- C4: the rename stage is best-effort per item — the loop is a total
function that treats every descriptor line (missing match, existing
target, OS-level failure all continue with the next line) — and, once the
directory listing is non-empty, it raises the aggregate
`No files were successfully renamed` error if and only if zero renames
succeeded over the whole loop. -/
theorem renameRun_aggregate_iff_zero (lines files : List (List Char))
    (osFail : List Char → List Char → Bool) (hf : files ≠ []) :
    renameRun lines files osFail = .error .noFilesRenamed ↔
      (renameLoop osFail lines 1 ⟨files, 0, []⟩).renamed = 0 := by
  constructor
  · intro h
    simp only [renameRun] at h
    rw [if_neg (by simpa using hf)] at h
    by_cases h0 : (renameLoop osFail lines 1 ⟨files, 0, []⟩).renamed = 0
    · exact h0
    · rw [if_neg h0] at h; cases h
  · intro h0
    exact renameRun_error_of_renamed_zero lines files osFail hf h0

/-- C4 witness: a concrete directory where the single rename succeeds, so
the aggregate error is (equivalently) absent. -/
theorem renameRun_aggregate_iff_zero_witness :
    ([("01-Song.mp3").data] : List (List Char)) ≠ [] ∧
    (renameRun [("01_Waltz; Artist -- Dance").data] [("01-Song.mp3").data]
        (fun _ _ => false) = .error .noFilesRenamed ↔
      (renameLoop (fun _ _ => false) [("01_Waltz; Artist -- Dance").data] 1
        ⟨[("01-Song.mp3").data], 0, []⟩).renamed = 0) :=
  ⟨by decide, renameRun_aggregate_iff_zero _ _ _ (by decide)⟩

/-- C5: every MP3 file whose name parses and whose duration reads
successfully contributes to the playlist the adjacent pair of lines
`#EXTINF:<trunc duration>,<artist> - <title>` and the percent-encoded
relative path; the stage then succeeds and the `.m3u8` copy carries
exactly the `.m3u` content. -/
theorem playlist_contains_extinf_and_path (dir : List Char)
    (files : List (List Char)) (durOf : List Char → Option ℚ)
    (af num title artist dance : List Char) (q : ℚ)
    (hmem : af ∈ files) (hmp3 : endsWithL ((".mp3").data) af = true)
    (hparse : parseFilename af = some (num, title, artist, dance))
    (hdur : durOf (ospJoin dir af) = some q) :
    List.IsInfix [extinfLine q artist title, pathLine dir af]
      (createPlaylistFiles dir files durOf).m3uContent ∧
    (createPlaylistFiles dir files durOf).m3u8Content =
      some (createPlaylistFiles dir files durOf).m3uContent ∧
    (createPlaylistFiles dir files durOf).result =
      .ok (playlistLoop dir durOf (sortStrs files)).2 := by
  have hentry : playlistEntry dir durOf af =
      some [extinfLine q artist title, pathLine dir af] := by
    simp [playlistEntry, hmp3, hparse, hdur]
  have hmem2 : af ∈ sortStrs files := mem_sortStrs af files hmem
  obtain ⟨hinf, hpos⟩ :=
    playlistLoop_entry_pair dir durOf af _ (sortStrs files) hmem2 hentry
  have hfne : ¬(files.isEmpty = true) := by
    cases files
    · cases hmem
    · simp
  have hn0 : ¬((playlistLoop dir durOf (sortStrs files)).2 = 0) := by omega
  simp only [createPlaylistFiles]
  rw [if_neg hfne, if_neg hn0]
  refine ⟨?_, rfl, rfl⟩
  obtain ⟨s, t, hst⟩ := hinf
  exact ⟨headerLine :: s, t, by simp [hst]⟩

/-- C5 witness: one file with reported duration 123.45 s yields the
truncated line `#EXTINF:123,Artist - Title` followed by the
percent-encoded path, and the `.m3u8` equals the `.m3u`. -/
theorem playlist_contains_extinf_and_path_witness :
    List.IsInfix
      [("#EXTINF:123,Artist - Title\n").data,
       ("music/01_Title%3B%20Artist%20--%20Style.mp3\n").data]
      (createPlaylistFiles (("music").data)
        [("01_Title; Artist -- Style.mp3").data]
        (fun _ => some (mkRat 12345 100))).m3uContent ∧
    (createPlaylistFiles (("music").data)
        [("01_Title; Artist -- Style.mp3").data]
        (fun _ => some (mkRat 12345 100))).m3u8Content =
      some (createPlaylistFiles (("music").data)
        [("01_Title; Artist -- Style.mp3").data]
        (fun _ => some (mkRat 12345 100))).m3uContent := by
  have h := playlist_contains_extinf_and_path (("music").data)
    [("01_Title; Artist -- Style.mp3").data] (fun _ => some (mkRat 12345 100))
    (("01_Title; Artist -- Style.mp3").data) (("01").data) (("Title").data)
    (("Artist").data) (("Style").data) (mkRat 12345 100)
    (by decide) (by decide) (by decide) (by rfl)
  have e1 : extinfLine (mkRat 12345 100) (("Artist").data) (("Title").data) =
      ("#EXTINF:123,Artist - Title\n").data := by decide
  have e2 : pathLine (("music").data) (("01_Title; Artist -- Style.mp3").data) =
      ("music/01_Title%3B%20Artist%20--%20Style.mp3\n").data := by decide
  rw [← e1, ← e2]
  exact ⟨h.1, h.2.1⟩

/-- Pointwise evaluation of `applyTags`: the chain of frame writes reads
back as a nested decision on the queried key. -/
theorem applyTags_apply (ts : TagMap) (num title artist dance album : List Char)
    (k : FrameId × List Char) :
    applyTags ts num title artist dance album k =
      if k = (.TPE2, []) then some album
      else if k = (.TALB, []) then some album
      else if k = (.COMM, []) then some dance
      else if k = (.TCON, []) then some dance
      else if k = (.TCOM, []) then some artist
      else if k = (.TPE1, []) then some artist
      else if k = (.TIT2, []) then some title
      else if k = (.TRK, []) then some num
      else if k = (.TRCK, []) then some num
      else if k.1 = .TXXX then none
      else if k.1 = .COMM then none
      else ts k := rfl

/-- C6: `apply_tags` is idempotent on the tag container — it first deletes
the pre-existing COMM and TXXX frames and then writes the derived frame
set, so applying it twice with the same filename-derived fields and album
equals applying it once, and no duplicate tags accumulate. -/
theorem applyTags_idempotent (ts : TagMap) (num title artist dance album : List Char) :
    applyTags (applyTags ts num title artist dance album) num title artist dance album =
      applyTags ts num title artist dance album := by
  funext k
  rw [applyTags_apply, applyTags_apply]
  by_cases h1 : k = (.TPE2, [])
  · simp only [if_pos h1]
  · simp only [if_neg h1]
    by_cases h2 : k = (.TALB, [])
    · simp only [if_pos h2]
    · simp only [if_neg h2]
      by_cases h3 : k = (.COMM, [])
      · simp only [if_pos h3]
      · simp only [if_neg h3]
        by_cases h4 : k = (.TCON, [])
        · simp only [if_pos h4]
        · simp only [if_neg h4]
          by_cases h5 : k = (.TCOM, [])
          · simp only [if_pos h5]
          · simp only [if_neg h5]
            by_cases h6 : k = (.TPE1, [])
            · simp only [if_pos h6]
            · simp only [if_neg h6]
              by_cases h7 : k = (.TIT2, [])
              · simp only [if_pos h7]
              · simp only [if_neg h7]
                by_cases h8 : k = (.TRK, [])
                · simp only [if_pos h8]
                · simp only [if_neg h8]
                  by_cases h9 : k = (.TRCK, [])
                  · simp only [if_pos h9]
                  · simp only [if_neg h9]
                    by_cases h10 : k.1 = .TXXX
                    · simp only [if_pos h10]
                    · simp only [if_neg h10]
                      by_cases h11 : k.1 = .COMM
                      · simp only [if_pos h11]
                      · simp only [if_neg h11]

/-- C7 counterexample: the mismatch message reports `line[:3]` — three
characters, not the 2-character prefix the claim states. -/
theorem trackMismatch_reports_three_chars :
    validateLines [("99_Song; Artist -- Dance\n").data] =
      .error (.trackMismatch 1 (("01").data) (("99_").data)
        (("99_Song; Artist -- Dance").data)) ∧
    (("99_").data).length = 3 :=
  ⟨by rfl, by decide⟩

/-- C7 witness: the payload of the concrete mismatch above. -/
theorem validateLines_error_trackMismatch_witness :
    ("01").data = zeroPad2 1 ∧
    ("99_").data = (("99_Song; Artist -- Dance").data).take 3 ∧
    startsWithL (zeroPad2 1) (("99_Song; Artist -- Dance").data) = false :=
  validateLines_error_trackMismatch [("99_Song; Artist -- Dance\n").data] 1
    (("01").data) (("99_").data) (("99_Song; Artist -- Dance").data) (by rfl)

/-- C8 counterexample: the KeyboardInterrupt handler exits with status 1,
the same status every caught domain error uses — not a distinct one. -/
theorem interrupt_exit_not_distinct :
    mainExitCode .keyboardInterrupt = mainExitCode .descriptorError ∧
    mainExitCode .keyboardInterrupt = mainExitCode .audioFileError ∧
    mainExitCode .keyboardInterrupt = mainExitCode .autoDITagError ∧
    mainExitCode .keyboardInterrupt = mainExitCode .unexpectedError := by
  decide

/-- C8 (amended): a user interrupt is caught at the top level and turned
into a clean exit with status 1 — the same status as every caught domain
error, distinct only from success (0) and argparse usage failure (2). -/
theorem interrupt_exit_code_one :
    mainExitCode .keyboardInterrupt = 1 ∧ mainExitCode .descriptorError = 1 ∧
    mainExitCode .audioFileError = 1 ∧ mainExitCode .autoDITagError = 1 ∧
    mainExitCode .unexpectedError = 1 ∧ mainExitCode .success = 0 ∧
    mainExitCode .usageError = 2 := by
  decide

/-- C9: when every descriptor line's target canonical filename already
exists in the directory (the state after a previous successful run),
every rename is skipped, the count stays zero, the listing is unchanged,
and the stage raises the aggregate error instead of succeeding as a
no-op. -/
theorem renameRun_noop_raises (lines files : List (List Char))
    (osFail : List Char → List Char → Bool) (hf : files ≠ [])
    (hall : ∀ line ∈ lines,
      files.contains (pyStrip line ++ (".mp3").data) = true) :
    (renameLoop osFail lines 1 ⟨files, 0, []⟩).renamed = 0 ∧
    (renameLoop osFail lines 1 ⟨files, 0, []⟩).files = files ∧
    renameRun lines files osFail = .error .noFilesRenamed := by
  have h := renameLoop_skip_all osFail lines 1 ⟨files, 0, []⟩ hall
  exact ⟨h.2, h.1, renameRun_error_of_renamed_zero lines files osFail hf h.2⟩

/-- C9 witness: a directory already holding the canonical name for its
only descriptor line. -/
theorem renameRun_noop_raises_witness :
    (renameLoop (fun _ _ => false) [("01_T; A -- D").data] 1
      ⟨[("01_T; A -- D.mp3").data], 0, []⟩).renamed = 0 ∧
    (renameLoop (fun _ _ => false) [("01_T; A -- D").data] 1
      ⟨[("01_T; A -- D.mp3").data], 0, []⟩).files = [("01_T; A -- D.mp3").data] ∧
    renameRun [("01_T; A -- D").data] [("01_T; A -- D.mp3").data]
      (fun _ _ => false) = .error .noFilesRenamed :=
  renameRun_noop_raises _ _ _ (by decide) (by decide)

/-- C10: when zero MP3 files are processed, the aggregate error is raised
only after `<name>.m3u` was opened for writing: the stage leaves an empty
(created or truncated) `.m3u` behind and produces no `.m3u8` copy. -/
theorem playlist_zero_processed_truncates (dir : List Char)
    (files : List (List Char)) (durOf : List Char → Option ℚ)
    (hf : files ≠ [])
    (h0 : (playlistLoop dir durOf (sortStrs files)).2 = 0) :
    (createPlaylistFiles dir files durOf).m3uOpened = true ∧
    (createPlaylistFiles dir files durOf).m3uContent = [] ∧
    (createPlaylistFiles dir files durOf).m3u8Content = none ∧
    (createPlaylistFiles dir files durOf).result = .error .noValidMp3s := by
  simp only [createPlaylistFiles]
  rw [if_neg (by simpa using hf), if_pos h0]
  exact ⟨rfl, rfl, rfl, rfl⟩

/-- C10 witness: a non-empty directory holding no processable MP3. -/
theorem playlist_zero_processed_truncates_witness :
    (createPlaylistFiles (("music").data) [("cover.jpg").data]
      (fun _ => none)).m3uOpened = true ∧
    (createPlaylistFiles (("music").data) [("cover.jpg").data]
      (fun _ => none)).m3uContent = [] ∧
    (createPlaylistFiles (("music").data) [("cover.jpg").data]
      (fun _ => none)).m3u8Content = none ∧
    (createPlaylistFiles (("music").data) [("cover.jpg").data]
      (fun _ => none)).result = .error .noValidMp3s :=
  playlist_zero_processed_truncates _ _ _ (by decide) (by decide)
